import Mathlib

/-!
Shallow embedding of the text-statistics engine of
`src/components/tools/CharacterCounter.tsx`.

JavaScript strings are sequences of UTF-16 code units: `inputText.length`
counts code units, `inputText[i]` selects the i-th code unit and
`charCodeAt(0)` yields its numeric value (for an astral-plane character the
two surrogate halves are visited separately).  The embedding therefore
represents the input text as `List Nat`, the list of UTF-16 code unit
values, and `utf16Units` converts a Lean `String` (a sequence of Unicode
scalar values) into that representation.
-/

/-- UTF-16 encoding of one Unicode scalar value: one code unit for the BMP,
a surrogate pair for astral-plane characters. -/
def utf16CodeUnits (c : Char) : List Nat :=
  if c.toNat < 0x10000 then [c.toNat]
  else [0xD800 + (c.toNat - 0x10000) / 0x400, 0xDC00 + (c.toNat - 0x10000) % 0x400]

/-- The sequence of UTF-16 code units of a string, i.e. the sequence a
JavaScript `for (let i = 0; i < s.length; i++) s[i]` loop visits. -/
def utf16Units (s : String) : List Nat :=
  (s.data.map utf16CodeUnits).flatten

/-- `interface CharacterStats` (CharacterCounter.tsx lines 10-22).
`tokens` is `number | undefined` in the source and the UI uses `-1` as an
"in flight" sentinel, hence `Option Int`. -/
structure CharacterStats where
  totalChars : Nat
  totalCharsNoSpaces : Nat
  words : Nat
  lines : Nat
  paragraphs : Nat
  chineseChars : Nat
  englishChars : Nat
  numbers : Nat
  punctuation : Nat
  spaces : Nat
  tokens : Option Int
deriving Repr, DecidableEq

/-- One entry of `SUPPORTED_MODELS` (lines 25-36). -/
structure ModelInfo where
  value : String
  label : String
  encoding : String
deriving Repr, DecidableEq

/-- `SUPPORTED_MODELS` (lines 25-36). -/
def SUPPORTED_MODELS : List ModelInfo :=
  [ { value := "gpt-4o", label := "GPT-4o", encoding := "o200k_base" },
    { value := "gpt-4o-mini", label := "GPT-4o Mini", encoding := "o200k_base" },
    { value := "o1-preview", label := "o1-preview", encoding := "o200k_base" },
    { value := "o1-mini", label := "o1-mini", encoding := "o200k_base" },
    { value := "gpt-4-turbo", label := "GPT-4 Turbo", encoding := "cl100k_base" },
    { value := "gpt-4", label := "GPT-4", encoding := "cl100k_base" },
    { value := "gpt-3.5-turbo", label := "GPT-3.5 Turbo", encoding := "cl100k_base" },
    { value := "text-davinci-003", label := "Text Davinci 003", encoding := "p50k_base" },
    { value := "text-davinci-002", label := "Text Davinci 002", encoding := "p50k_base" },
    { value := "text-davinci-001", label := "Text Davinci 001", encoding := "r50k_base" } ]

/-- `SUPPORTED_MODELS.find(m => m.value === modelValue)` (line 64). -/
def findModel (modelValue : String) : Option ModelInfo :=
  SUPPORTED_MODELS.find? fun m => m.value == modelValue

/-- An external tokenizer: `encode(text)` either returns a token list or
throws (modelled as `Except.error`). -/
abbrev Tokenizer := List Nat → Except String (List Nat)

/-- The dynamic-import step keyed by encoding name (`await import(...)`,
lines 70-85): loading either yields a tokenizer or throws. -/
abbrev Loader := String → Except String Tokenizer

/-- `calculateTokens` (lines 61-105): resolve the model in
`SUPPORTED_MODELS` (unknown model returns 0); load the tokenizer for the
model's encoding (a load failure is caught by the outer `try`/`catch` and
returns 0); run `encode` and return the length of its result (an encode
failure is caught by the inner `try`/`catch` and resolves 0).  The
`default` switch branch is unreachable for table entries, so the switch is
the single `load model.encoding` call. -/
def calculateTokens (load : Loader) (input : List Nat) (modelValue : String) : Nat :=
  match findModel modelValue with
  | none => 0
  | some model =>
    match load model.encoding with
    | Except.error _ => 0
    | Except.ok tokenizer =>
      match tokenizer input with
      | Except.error _ => 0
      | Except.ok toks => toks.length

/-- `char === ' ' || char === '\t'` (line 155). -/
def isSpaceU (c : Nat) : Bool := c == 32 || c == 9

/-- `char >= '0' && char <= '9'` (line 157). -/
def isDigitU (c : Nat) : Bool := decide (48 ≤ c ∧ c ≤ 57)

/-- `(code >= 65 && code <= 90) || (code >= 97 && code <= 122)` (line 159). -/
def isLetterU (c : Nat) : Bool :=
  decide ((65 ≤ c ∧ c ≤ 90) ∨ (97 ≤ c ∧ c ≤ 122))

/-- `code >= 0x4e00 && code <= 0x9fff` (line 162). -/
def isCJKU (c : Nat) : Bool := decide (0x4e00 ≤ c ∧ c ≤ 0x9fff)

/-- The code points of the punctuation character class
`[.,;:!?'"()[\]{}\-_+=<>/@#$%^&*~` + backtick + `|\\]` (line 165); the
class is pure ASCII so membership by code-unit value is exact. -/
def punctCodes : List Nat :=
  [46, 44, 59, 58, 33, 63, 39, 34, 40, 41, 91, 93, 123, 125, 45, 95, 43, 61,
   60, 62, 47, 64, 35, 36, 37, 94, 38, 42, 126, 96, 124, 92]

/-- The full punctuation branch condition
`char !== '\n' && char !== '\r' && regex.test(char)` (line 165). -/
def isPunctU (c : Nat) : Bool :=
  !(c == 10) && !(c == 13) && punctCodes.contains c

/-- The classification buckets of the `if`/`else if` chain
(lines 155-167); `other` is the silent fall-through. -/
inductive CharClass where
  | space
  | number
  | english
  | chinese
  | punct
  | other
deriving Repr, DecidableEq

/-- The `if`/`else if` chain of lines 155-167, in source order. -/
def classifyU (c : Nat) : CharClass :=
  if isSpaceU c then CharClass.space
  else if isDigitU c then CharClass.number
  else if isLetterU c then CharClass.english
  else if isCJKU c then CharClass.chinese
  else if isPunctU c then CharClass.punct
  else CharClass.other

/-- The mutable locals of the single scanning loop (lines 127-134). -/
structure ScanAcc where
  chineseChars : Nat
  englishChars : Nat
  numbers : Nat
  punctuation : Nat
  spaces : Nat
  lines : Nat
  paragraphs : Nat
  inParagraph : Bool
deriving Repr, DecidableEq

/-- Initial values of the scan locals: `lines = 1` ("at least one line"),
everything else 0, `inParagraph = false` (lines 127-134). -/
def initScanAcc : ScanAcc :=
  { chineseChars := 0, englishChars := 0, numbers := 0, punctuation := 0,
    spaces := 0, lines := 1, paragraphs := 0, inParagraph := false }

/-- Line/paragraph half of the loop body (lines 142-152): `\n` increments
`lines`, closes an open paragraph; any character other than space, tab and
carriage return opens a paragraph. -/
def bumpLinePara (acc : ScanAcc) (c : Nat) : ScanAcc :=
  if c = 10 then
    { acc with lines := acc.lines + 1,
               paragraphs := if acc.inParagraph then acc.paragraphs + 1 else acc.paragraphs,
               inParagraph := false }
  else if c ≠ 32 ∧ c ≠ 9 ∧ c ≠ 13 then
    { acc with inParagraph := true }
  else acc

/-- Classification half of the loop body (lines 155-167): the bucket chosen
by the `if`/`else if` chain is incremented; `other` characters are
uncounted. -/
def bumpClass (acc : ScanAcc) (c : Nat) : ScanAcc :=
  match classifyU c with
  | CharClass.space => { acc with spaces := acc.spaces + 1 }
  | CharClass.number => { acc with numbers := acc.numbers + 1 }
  | CharClass.english => { acc with englishChars := acc.englishChars + 1 }
  | CharClass.chinese => { acc with chineseChars := acc.chineseChars + 1 }
  | CharClass.punct => { acc with punctuation := acc.punctuation + 1 }
  | CharClass.other => acc

/-- One iteration of the scanning loop (lines 137-168): line/paragraph
tracking, then classification. -/
def scanStep (acc : ScanAcc) (c : Nat) : ScanAcc :=
  bumpClass (bumpLinePara acc c) c

/-- `/[a-zA-Z0-9一-鿿]/.test(char)` (line 182). -/
def isWordCharU (c : Nat) : Bool := isLetterU c || isDigitU c || isCJKU c

/-- One iteration of the word-counting loop (lines 180-190): entering a
maximal run of word characters increments `words`. -/
def wordStep (s : Nat × Bool) (c : Nat) : Nat × Bool :=
  if isWordCharU c && !s.2 then (s.1 + 1, true)
  else if !isWordCharU c then (s.1, false)
  else s

/-- `calculateStats` (lines 108-211).  The empty-input fast path (lines
111-125) returns the all-zero record literally as written in the source —
including `lines: 0`.  Otherwise one scan pass produces the classification
and line/paragraph counts, `totalCharsNoSpaces = totalChars - spaces`
(line 175), a second loop counts words, and `tokens` is populated from
`calculateTokens` only when `includeTokens` is set. -/
def calculateStats (load : Loader) (input : List Nat) (includeTokens : Bool)
    (modelValue : String) : CharacterStats :=
  if input.length = 0 then
    { totalChars := 0, totalCharsNoSpaces := 0, words := 0, lines := 0,
      paragraphs := 0, chineseChars := 0, englishChars := 0, numbers := 0,
      punctuation := 0, spaces := 0,
      tokens := if includeTokens then some 0 else none }
  else
    let acc := input.foldl scanStep initScanAcc
    let paragraphs := if acc.inParagraph then acc.paragraphs + 1 else acc.paragraphs
    { totalChars := input.length,
      totalCharsNoSpaces := input.length - acc.spaces,
      words := (input.foldl wordStep (0, false)).1,
      lines := acc.lines,
      paragraphs := paragraphs,
      chineseChars := acc.chineseChars,
      englishChars := acc.englishChars,
      numbers := acc.numbers,
      punctuation := acc.punctuation,
      spaces := acc.spaces,
      tokens := if includeTokens then some ((calculateTokens load input modelValue : Nat) : Int) else none }

/-- The adaptive debounce tier selection of `updateStats` (lines 219-229). -/
def debounceDelay (textLength : Nat) : Nat :=
  if textLength > 100000 then 2000
  else if textLength > 50000 then 1000
  else if textLength > 10000 then 600
  else 300

/-- A scheduled, not-yet-fired debounce timer (`debounceTimeoutRef`,
line 57): the captured input text and the chosen delay. -/
structure PendingTimer where
  text : List Nat
  delay : Nat
deriving Repr, DecidableEq

/-- An asynchronous token computation started by a fired cycle and not yet
resolved (the `await calculateTokens(inputText, selectedModel)` of
line 251, whose closure captures the cycle's own text and model). -/
structure TokenTask where
  text : List Nat
  modelValue : String
deriving Repr, DecidableEq

/-- The observable state of one `CharacterCounter` instance: the pending
debounce timer, the published `stats` (the React state, line 43), and the
in-flight token computations. -/
structure EngineState where
  pendingTimer : Option PendingTimer
  published : CharacterStats
  inFlight : List TokenTask
deriving Repr, DecidableEq

/-- Configuration fixed across a trace: `enableTokenCount`,
`selectedModel` and the tokenizer loader. -/
structure EngineConfig where
  enableTokenCount : Bool
  selectedModel : String
  load : Loader

/-- Events of the single-threaded event loop: a call to `updateStats`
(`schedule`), the firing of the pending debounce timer (`fire`), and the
arrival of the result of the i-th in-flight token computation
(`resolveTask`). -/
inductive SchedEvent where
  | schedule (text : List Nat)
  | fire
  | resolveTask (i : Nat)

/-- `setStats(prevStats => ({ ...prevStats, tokens }))` (lines 254-257 and
261-264): the spread merges the token result into the currently published
report, changing only the `tokens` field. -/
def publishTokens (r : CharacterStats) (t : Int) : CharacterStats :=
  { r with tokens := some t }

/-- One event of `updateStats` (lines 214-287):
`schedule` clears any pending (not yet fired) timer via `clearTimeout` and
arms a new one with the delay chosen from the current input length; `fire`
publishes the basic statistics (`setStats(basicStats)`, line 240), and when
token counting is enabled publishes the `-1` "computing" sentinel and
starts an asynchronous token computation; `resolveTask i` delivers the
result of the i-th in-flight computation, which is merged into whatever
report is currently published — the source performs no generation check
before this publish. -/
def stepE (cfg : EngineConfig) (st : EngineState) : SchedEvent → EngineState
  | SchedEvent.schedule text =>
      { st with pendingTimer := some { text := text, delay := debounceDelay text.length } }
  | SchedEvent.fire =>
      match st.pendingTimer with
      | none => st
      | some pt =>
        let basic := calculateStats cfg.load pt.text false cfg.selectedModel
        if cfg.enableTokenCount then
          { pendingTimer := none,
            published := { basic with tokens := some (-1) },
            inFlight := st.inFlight ++ [{ text := pt.text, modelValue := cfg.selectedModel }] }
        else
          { st with pendingTimer := none, published := basic }
  | SchedEvent.resolveTask i =>
      match st.inFlight.get? i with
      | none => st
      | some task =>
        { st with
            published := publishTokens st.published
              ((calculateTokens cfg.load task.text task.modelValue : Nat) : Int),
            inFlight := st.inFlight.eraseIdx i }

/-- Initial React state (lines 43-54): the all-zero report, no timer, no
in-flight computation. -/
def initialStats : CharacterStats :=
  { totalChars := 0, totalCharsNoSpaces := 0, words := 0, lines := 0,
    paragraphs := 0, chineseChars := 0, englishChars := 0, numbers := 0,
    punctuation := 0, spaces := 0, tokens := none }

/-- Initial engine state. -/
def initState : EngineState :=
  { pendingTimer := none, published := initialStats, inFlight := [] }

/-- Run a trace of scheduler events from the initial state. -/
def runTrace (cfg : EngineConfig) (evs : List SchedEvent) : EngineState :=
  evs.foldl (stepE cfg) initState

/-- A loader whose tokenizer never fails and encodes one token per code
unit; used to instantiate the scheduler model on concrete traces. -/
def unitLoad : Loader := fun _ => Except.ok (fun input => Except.ok input)

/-- A loader that always fails to load, modelling a tokenizer that cannot
be imported. -/
def errLoad : Loader := fun _ => Except.error "load failure"

/-- `Except` success test, used to state "the tokenizer could not be
loaded or threw". -/
def isOkE (e : Except String (List Nat)) : Bool :=
  match e with
  | Except.ok _ => true
  | Except.error _ => false

/-- Composition of loading and encoding: the token-computation pipeline
before its two `catch` handlers turn failure into 0. -/
def tokenizeResult (load : Loader) (enc : String) (input : List Nat) :
    Except String (List Nat) :=
  match load enc with
  | Except.error e => Except.error e
  | Except.ok tokenizer => tokenizer input

/-! ### Specification-side definitions

The following definitions are written from the specification's words, not
from the source; they exist to be compared with the source-derived
definitions above. -/

/-- Split a code-unit sequence at newlines; the result is returned as a
guaranteed-nonempty pair (first line, remaining lines). -/
def splitLinesNE : List Nat → List Nat × List (List Nat)
  | [] => ([], [])
  | c :: rest =>
    let p := splitLinesNE rest
    if c = 10 then ([], p.1 :: p.2) else (c :: p.1, p.2)

/-- The `\n`-separated lines of the input. -/
def splitLines (input : List Nat) : List (List Nat) :=
  (splitLinesNE input).1 :: (splitLinesNE input).2

/-- Modelled from the spec: a blank line consists solely of blanks
(space/tab/carriage-return). -/
def isBlankLine (l : List Nat) : Bool :=
  l.all fun c => c == 32 || c == 9 || c == 13

/-- The number of lines containing non-blank content. -/
def nonBlankLineCount (input : List Nat) : Nat :=
  ((splitLines input).filter fun l => !(isBlankLine l)).length

/-- Count the maximal runs of `true` in a list of flags, given whether the
previous flag was `true`. -/
def countRuns : List Bool → Bool → Nat
  | [], _ => 0
  | b :: rest, prev => (if b && !prev then 1 else 0) + countRuns rest b

/-- Modelled from the spec: "count of maximal runs of non-blank lines". -/
def maximalNonBlankRuns (input : List Nat) : Nat :=
  countRuns ((splitLines input).map fun l => !(isBlankLine l)) false

/-- Paragraph count of the remaining input given whether the current line
has already seen non-blank content; a recursion-structured restatement of
the loop's paragraph logic, used to bridge the fold to `splitLines`. -/
def paraRun : List Nat → Bool → Nat
  | [], inP => if inP then 1 else 0
  | c :: rest, inP =>
    if c = 10 then (if inP then 1 else 0) + paraRun rest false
    else if c ≠ 32 ∧ c ≠ 9 ∧ c ≠ 13 then paraRun rest true
    else paraRun rest inP

/-- A concrete engine configuration: token counting enabled, first model,
a tokenizer that yields one token per code unit. -/
def cfgEx : EngineConfig :=
  { enableTokenCount := true, selectedModel := "gpt-4o", load := unitLoad }

/-! ### Helper lemmas about the scanning loop -/

theorem bumpLinePara_spaces (acc : ScanAcc) (c : Nat) :
    (bumpLinePara acc c).spaces = acc.spaces := by
  unfold bumpLinePara; split <;> try rfl
  split <;> rfl

theorem bumpLinePara_classCounts (acc : ScanAcc) (c : Nat) :
    (bumpLinePara acc c).chineseChars = acc.chineseChars ∧
    (bumpLinePara acc c).englishChars = acc.englishChars ∧
    (bumpLinePara acc c).numbers = acc.numbers ∧
    (bumpLinePara acc c).punctuation = acc.punctuation ∧
    (bumpLinePara acc c).spaces = acc.spaces := by
  unfold bumpLinePara
  split
  · exact ⟨rfl, rfl, rfl, rfl, rfl⟩
  · split
    · exact ⟨rfl, rfl, rfl, rfl, rfl⟩
    · exact ⟨rfl, rfl, rfl, rfl, rfl⟩

theorem bumpClass_para (acc : ScanAcc) (c : Nat) :
    (bumpClass acc c).paragraphs = acc.paragraphs ∧
    (bumpClass acc c).inParagraph = acc.inParagraph ∧
    (bumpClass acc c).lines = acc.lines := by
  unfold bumpClass
  cases h : classifyU c <;> exact ⟨rfl, rfl, rfl⟩

theorem bumpClass_spaces (acc : ScanAcc) (c : Nat) :
    (bumpClass acc c).spaces
      = acc.spaces + (if classifyU c = CharClass.space then 1 else 0) := by
  unfold bumpClass
  cases h : classifyU c <;> simp [h]

theorem classifyU_space_iff (c : Nat) :
    classifyU c = CharClass.space ↔ isSpaceU c = true := by
  unfold classifyU
  split_ifs <;> simp_all

theorem scanStep_spaces (acc : ScanAcc) (c : Nat) :
    (scanStep acc c).spaces = acc.spaces + (if isSpaceU c then 1 else 0) := by
  unfold scanStep
  rw [bumpClass_spaces, bumpLinePara_spaces]
  by_cases h : isSpaceU c
  · simp [h, (classifyU_space_iff c).2 h]
  · have : ¬ classifyU c = CharClass.space := fun hc => h ((classifyU_space_iff c).1 hc)
    simp [h, this]

theorem foldl_scan_spaces (l : List Nat) : ∀ acc : ScanAcc,
    (l.foldl scanStep acc).spaces = acc.spaces + l.countP (fun c => isSpaceU c) := by
  induction l with
  | nil => intro acc; simp
  | cons c rest ih =>
    intro acc
    rw [List.foldl_cons, ih, scanStep_spaces, List.countP_cons]
    by_cases h : isSpaceU c
    · simp only [h, if_pos, if_true]
      omega
    · simp [h]

theorem scanStep_sum_le (acc : ScanAcc) (c : Nat) :
    (scanStep acc c).chineseChars + (scanStep acc c).englishChars
      + (scanStep acc c).numbers + (scanStep acc c).punctuation
      + (scanStep acc c).spaces
    ≤ acc.chineseChars + acc.englishChars + acc.numbers + acc.punctuation
      + acc.spaces + 1 := by
  unfold scanStep
  obtain ⟨h1, h2, h3, h4, h5⟩ := bumpLinePara_classCounts acc c
  unfold bumpClass
  cases h : classifyU c <;> simp [h1, h2, h3, h4, h5] <;> omega

theorem foldl_scan_sum_le (l : List Nat) : ∀ acc : ScanAcc,
    (l.foldl scanStep acc).chineseChars + (l.foldl scanStep acc).englishChars
      + (l.foldl scanStep acc).numbers + (l.foldl scanStep acc).punctuation
      + (l.foldl scanStep acc).spaces
    ≤ acc.chineseChars + acc.englishChars + acc.numbers + acc.punctuation
      + acc.spaces + l.length := by
  induction l with
  | nil => intro acc; simp
  | cons c rest ih =>
    intro acc
    rw [List.foldl_cons]
    calc _ ≤ _ := ih (scanStep acc c)
    _ ≤ _ := by
      have := scanStep_sum_le acc c
      simp only [List.length_cons]
      omega

theorem countP_space_lb_le (l : List Nat) :
    l.countP (fun c => isSpaceU c) + l.countP (fun c => c == 10 || c == 13)
      ≤ l.length := by
  induction l with
  | nil => simp
  | cons c rest ih =>
    simp only [List.countP_cons, List.length_cons]
    by_cases h1 : isSpaceU c
    · have h2 : ¬ ((c == 10 || c == 13) = true) := by
        simp only [isSpaceU] at h1
        simp only [Bool.or_eq_true, beq_iff_eq] at h1 ⊢
        omega
      simp [h1, h2]; omega
    · by_cases h2 : (c == 10 || c == 13) = true <;> simp [h1, h2] <;> omega

theorem scanStep_para (acc : ScanAcc) (c : Nat) :
    (scanStep acc c).paragraphs = (bumpLinePara acc c).paragraphs ∧
    (scanStep acc c).inParagraph = (bumpLinePara acc c).inParagraph ∧
    (scanStep acc c).lines = (bumpLinePara acc c).lines := by
  unfold scanStep
  exact bumpClass_para (bumpLinePara acc c) c

theorem paraFold_eq (l : List Nat) : ∀ acc : ScanAcc,
    (if (l.foldl scanStep acc).inParagraph then (l.foldl scanStep acc).paragraphs + 1
     else (l.foldl scanStep acc).paragraphs)
      = acc.paragraphs + paraRun l acc.inParagraph := by
  induction l with
  | nil =>
    intro acc
    cases h : acc.inParagraph <;> simp [paraRun, h]
  | cons c rest ih =>
    intro acc
    rw [List.foldl_cons, ih]
    obtain ⟨hp, hi, _⟩ := scanStep_para acc c
    rw [hp, hi]
    by_cases h10 : c = 10
    · subst h10
      simp only [paraRun, bumpLinePara, if_pos rfl]
      cases hip : acc.inParagraph <;> (simp [hip]; try omega)
    · by_cases hnb : c ≠ 32 ∧ c ≠ 9 ∧ c ≠ 13
      · simp [paraRun, bumpLinePara, h10, hnb]
      · simp [paraRun, bumpLinePara, h10, hnb]

theorem paraRun_cons_nl (rest : List Nat) (inP : Bool) :
    paraRun (10 :: rest) inP = (if inP then 1 else 0) + paraRun rest false := by
  simp [paraRun]

theorem paraRun_cons_nonblank {c : Nat} (h10 : c ≠ 10)
    (hnb : c ≠ 32 ∧ c ≠ 9 ∧ c ≠ 13) (rest : List Nat) (inP : Bool) :
    paraRun (c :: rest) inP = paraRun rest true := by
  simp [paraRun, h10, hnb]

theorem paraRun_cons_blank {c : Nat} (h10 : c ≠ 10)
    (hnb : ¬(c ≠ 32 ∧ c ≠ 9 ∧ c ≠ 13)) (rest : List Nat) (inP : Bool) :
    paraRun (c :: rest) inP = paraRun rest inP := by
  simp [paraRun, h10, hnb]

theorem splitLinesNE_cons_nl (rest : List Nat) :
    splitLinesNE (10 :: rest) = ([], (splitLinesNE rest).1 :: (splitLinesNE rest).2) := by
  simp [splitLinesNE]

theorem splitLinesNE_cons_other {c : Nat} (h10 : c ≠ 10) (rest : List Nat) :
    splitLinesNE (c :: rest) = (c :: (splitLinesNE rest).1, (splitLinesNE rest).2) := by
  simp [splitLinesNE, h10]

theorem paraRun_splitLines (l : List Nat) : ∀ inP : Bool,
    paraRun l inP
      = (if inP || !(isBlankLine (splitLinesNE l).1) then 1 else 0)
        + ((splitLinesNE l).2.filter fun x => !(isBlankLine x)).length := by
  induction l with
  | nil =>
    intro inP
    cases inP <;> simp [paraRun, splitLinesNE, isBlankLine]
  | cons c rest ih =>
    intro inP
    by_cases h10 : c = 10
    · subst h10
      rw [paraRun_cons_nl, splitLinesNE_cons_nl, ih false]
      simp only [List.filter_cons]
      have hnil : isBlankLine [] = true := rfl
      by_cases hb : isBlankLine (splitLinesNE rest).1
      · simp [hb, hnil]
      · cases inP <;> simp [hb, hnil] <;> omega
    · by_cases hnb : c ≠ 32 ∧ c ≠ 9 ∧ c ≠ 13
      · have hblank : isBlankLine (c :: (splitLinesNE rest).1) = false := by
          simp [isBlankLine, hnb.1, hnb.2.1, hnb.2.2]
        rw [paraRun_cons_nonblank h10 hnb, splitLinesNE_cons_other h10, ih true]
        simp [hblank]
      · have hb : c = 32 ∨ c = 9 ∨ c = 13 := by
          by_contra hc
          push_neg at hc
          exact hnb ⟨hc.1, hc.2.1, hc.2.2⟩
        have hblank : isBlankLine (c :: (splitLinesNE rest).1)
            = isBlankLine (splitLinesNE rest).1 := by
          rcases hb with h | h | h <;> subst h <;> simp [isBlankLine]
        rw [paraRun_cons_blank h10 hnb, splitLinesNE_cons_other h10, ih inP, hblank]

/-! ### Claim theorems -/

/-- Claim C2 (code bug witness): on the empty input, `calculateStats`
returns the all-zero report of its fast path, whose `lines` field is 0 and
not the 1 the specification states; the scanning path that the fast path
shortcuts initializes `lines` to 1 and would therefore report 1 line for
the empty input. -/
theorem emptyInputReport :
    calculateStats errLoad [] false "gpt-4o"
      = { totalChars := 0, totalCharsNoSpaces := 0, words := 0, lines := 0,
          paragraphs := 0, chineseChars := 0, englishChars := 0, numbers := 0,
          punctuation := 0, spaces := 0, tokens := none } ∧
    (calculateStats errLoad [] false "gpt-4o").lines ≠ 1 ∧
    (([] : List Nat).foldl scanStep initScanAcc).lines = 1 := by
  refine ⟨rfl, ?_, rfl⟩
  intro h
  simp [calculateStats] at h

/-- Claim C3 (counterexample): on the input "a" newline "b" — two
non-blank lines separated by a single newline, hence one maximal run of
non-blank lines — `calculateStats` reports 2 paragraphs, not 1: a
paragraph boundary is produced at every newline ending a line with
non-blank content, not only at blank lines. -/
theorem paragraphsNotMaximalRuns :
    (calculateStats errLoad (utf16Units "a\nb") false "gpt-4o").paragraphs = 2 ∧
    maximalNonBlankRuns (utf16Units "a\nb") = 1 ∧
    (calculateStats errLoad (utf16Units "a\nb") false "gpt-4o").paragraphs
      ≠ maximalNonBlankRuns (utf16Units "a\nb") := by
  refine ⟨by decide, by decide, by decide⟩

/-- Claim C3 (amended): for every input, the `paragraphs` field equals the
number of newline-separated lines that contain at least one non-blank
character (blank = space, tab or carriage return); equivalently, a
paragraph ends at every newline that terminates a line with non-blank
content, and a line with non-blank content still open at end-of-input is
counted. -/
theorem paragraphsCountNonBlankLines (load : Loader) (input : List Nat)
    (includeTokens : Bool) (mv : String) :
    (calculateStats load input includeTokens mv).paragraphs
      = nonBlankLineCount input := by
  unfold calculateStats
  split
  · rename_i h
    rw [List.length_eq_zero] at h
    subst h
    simp [nonBlankLineCount, splitLines, splitLinesNE, isBlankLine]
  · show (if (input.foldl scanStep initScanAcc).inParagraph
        then (input.foldl scanStep initScanAcc).paragraphs + 1
        else (input.foldl scanStep initScanAcc).paragraphs)
      = nonBlankLineCount input
    rw [paraFold_eq input initScanAcc]
    show 0 + paraRun input false = nonBlankLineCount input
    rw [Nat.zero_add, paraRun_splitLines input false]
    unfold nonBlankLineCount splitLines
    simp only [List.filter_cons]
    by_cases hb : isBlankLine (splitLinesNE input).1
    · simp [hb]
    · simp [hb]
      omega

/-- Claim C4 (counterexample): the scan iterates over UTF-16 code units,
not Unicode scalar values: the single-scalar astral-plane character U+1F600
contributes 2 to `totalChars`, not 1. -/
theorem astralCharIsTwoCodeUnits :
    (calculateStats errLoad (utf16Units "😀") false "gpt-4o").totalChars = 2 ∧
    String.length "😀" = 1 ∧
    (calculateStats errLoad (utf16Units "😀") false "gpt-4o").totalChars
      ≠ String.length "😀" := by
  refine ⟨by decide, by decide, by decide⟩

/-- Claim C4 (amended): for every input, `totalChars` equals the number of
UTF-16 code units of the input (the JavaScript string length), the
sequence over which the classification pass iterates; an astral-plane
character therefore contributes 2, not 1. -/
theorem totalCharsCountsCodeUnits (load : Loader) (input : List Nat)
    (includeTokens : Bool) (mv : String) :
    (calculateStats load input includeTokens mv).totalChars = input.length := by
  unfold calculateStats
  split
  · rename_i h
    simp [h]
  · rfl

/-- Claim C5: for every input, `totalChars = totalCharsNoSpaces + spaces`,
and the five classification buckets sum to at most `totalChars` (each
code unit lands in at most one bucket; line breaks and unclassified
characters are counted in none). -/
theorem statsInvariants (load : Loader) (input : List Nat)
    (includeTokens : Bool) (mv : String) :
    (calculateStats load input includeTokens mv).totalChars
        = (calculateStats load input includeTokens mv).totalCharsNoSpaces
          + (calculateStats load input includeTokens mv).spaces ∧
    (calculateStats load input includeTokens mv).chineseChars
        + (calculateStats load input includeTokens mv).englishChars
        + (calculateStats load input includeTokens mv).numbers
        + (calculateStats load input includeTokens mv).punctuation
        + (calculateStats load input includeTokens mv).spaces
      ≤ (calculateStats load input includeTokens mv).totalChars := by
  have hsum := foldl_scan_sum_le input initScanAcc
  have hcount : input.countP (fun c => isSpaceU c) ≤ input.length :=
    List.countP_le_length _
  have hspaces := foldl_scan_spaces input initScanAcc
  have hz1 : initScanAcc.chineseChars = 0 := rfl
  have hz2 : initScanAcc.englishChars = 0 := rfl
  have hz3 : initScanAcc.numbers = 0 := rfl
  have hz4 : initScanAcc.punctuation = 0 := rfl
  have hz5 : initScanAcc.spaces = 0 := rfl
  unfold calculateStats
  split
  · simp
  · constructor
    · show input.length
          = input.length - (input.foldl scanStep initScanAcc).spaces
            + (input.foldl scanStep initScanAcc).spaces
      omega
    · show (input.foldl scanStep initScanAcc).chineseChars
            + (input.foldl scanStep initScanAcc).englishChars
            + (input.foldl scanStep initScanAcc).numbers
            + (input.foldl scanStep initScanAcc).punctuation
            + (input.foldl scanStep initScanAcc).spaces
          ≤ input.length
      omega

/-- Claim C6: the debounce delay is chosen from the current input length by
the tiers above 100000 / above 50000 / above 10000 / at most 10000 giving
2000 / 1000 / 600 / 300 ms, so lengths 10000, 10001, 50001 and 100001 give
300, 600, 1000 and 2000 ms; every `schedule` event arms the timer with
exactly this delay for its input. -/
theorem debounceDelayTiers (len : Nat) :
    (100000 < len → debounceDelay len = 2000) ∧
    (50000 < len → len ≤ 100000 → debounceDelay len = 1000) ∧
    (10000 < len → len ≤ 50000 → debounceDelay len = 600) ∧
    (len ≤ 10000 → debounceDelay len = 300) ∧
    debounceDelay 10000 = 300 ∧ debounceDelay 10001 = 600 ∧
    debounceDelay 50001 = 1000 ∧ debounceDelay 100001 = 2000 ∧
    ∀ (cfg : EngineConfig) (st : EngineState) (text : List Nat),
      (stepE cfg st (SchedEvent.schedule text)).pendingTimer
        = some { text := text, delay := debounceDelay text.length } := by
  refine ⟨?_, ?_, ?_, ?_, by decide, by decide, by decide, by decide,
    fun cfg st text => rfl⟩
  · intro h
    unfold debounceDelay
    split_ifs <;> omega
  · intro h h2
    unfold debounceDelay
    split_ifs <;> omega
  · intro h h2
    unfold debounceDelay
    split_ifs <;> omega
  · intro h
    unfold debounceDelay
    split_ifs <;> omega

/-- Witness for C6 at the concrete length 100001. -/
theorem debounceDelayTiers_witness :
    100000 < 100001 ∧ debounceDelay 100001 = 2000 :=
  ⟨by omega, (debounceDelayTiers 100001).1 (by omega)⟩

/-- Claim C7 (counterexample): the 5-character input "a b" newline "c"
contains exactly one space character, so `calculateStats` reports
`spaces = 1`, not the 2 the claim states. -/
theorem exampleSpacesMismatch :
    (calculateStats errLoad (utf16Units "a b\nc") false "gpt-4o").spaces = 1 ∧
    (calculateStats errLoad (utf16Units "a b\nc") false "gpt-4o").spaces ≠ 2 := by
  refine ⟨by decide, by decide⟩

/-- Claim C7 (amended): on the input "a b" newline "c" the report is
totalChars = 5, spaces = 1, totalCharsNoSpaces = 4, englishChars = 3,
lines = 2, words = 3, paragraphs = 2 (and no Chinese characters, digits or
punctuation). -/
theorem exampleStatsValues :
    calculateStats errLoad (utf16Units "a b\nc") false "gpt-4o"
      = { totalChars := 5, totalCharsNoSpaces := 4, words := 3, lines := 2,
          paragraphs := 2, chineseChars := 0, englishChars := 3, numbers := 0,
          punctuation := 0, spaces := 1, tokens := none } := by
  decide

/-- Claim C9: only the space (32) and tab (9) code units are classified
into the `spaces` bucket — `spaces` counts exactly those units — while the
newline (10) and carriage return (13) land in no bucket; consequently
every line-break character is included in `totalCharsNoSpaces`. -/
theorem spaceBucketCharacterization (load : Loader) (input : List Nat)
    (includeTokens : Bool) (mv : String) :
    (calculateStats load input includeTokens mv).spaces
        = input.countP (fun c => isSpaceU c) ∧
    (∀ c : Nat, classifyU c = CharClass.space ↔ (c = 32 ∨ c = 9)) ∧
    classifyU 10 = CharClass.other ∧
    classifyU 13 = CharClass.other ∧
    input.countP (fun c => c == 10 || c == 13)
      ≤ (calculateStats load input includeTokens mv).totalCharsNoSpaces := by
  have hspaces := foldl_scan_spaces input initScanAcc
  have hz : initScanAcc.spaces = 0 := rfl
  have hdisj := countP_space_lb_le input
  refine ⟨?_, ?_, by decide, by decide, ?_⟩
  · unfold calculateStats
    split
    · rename_i h
      rw [List.length_eq_zero] at h
      subst h
      simp
    · show (input.foldl scanStep initScanAcc).spaces
          = input.countP (fun c => isSpaceU c)
      omega
  · intro c
    rw [classifyU_space_iff]
    unfold isSpaceU
    simp
  · unfold calculateStats
    split
    · rename_i h
      rw [List.length_eq_zero] at h
      subst h
      simp
    · show input.countP (fun c => c == 10 || c == 13)
          ≤ input.length - (input.foldl scanStep initScanAcc).spaces
      omega

/-- Claim C10: a model identifier absent from `SUPPORTED_MODELS` makes
`calculateTokens` return 0, for every input and every loader (no tokenizer
is consulted). -/
theorem unknownModelYieldsZero (load : Loader) (input : List Nat)
    (mv : String) (hm : findModel mv = none) :
    calculateTokens load input mv = 0 := by
  unfold calculateTokens
  rw [hm]

/-- Witness for C10 at the concrete model identifier "gpt-5". -/
theorem unknownModelYieldsZero_witness :
    findModel "gpt-5" = none ∧
    calculateTokens unitLoad (utf16Units "hello") "gpt-5" = 0 :=
  ⟨by decide, unknownModelYieldsZero unitLoad (utf16Units "hello") "gpt-5" (by decide)⟩

/-- Claim C8: when the tokenizer cannot be loaded or its encode throws (the
load/encode pipeline does not succeed), `calculateTokens` returns 0 rather
than propagating the failure; and publishing a token result merges it into
the published report changing only the `tokens` field, so the
basic-statistics fields of the report are never prevented or altered by a
tokenizer failure. -/
theorem tokenizerFailureIsSoft (load : Loader) (input : List Nat)
    (mv : String) (m : ModelInfo) (hm : findModel mv = some m)
    (hfail : isOkE (tokenizeResult load m.encoding input) = false) :
    calculateTokens load input mv = 0 ∧
    ∀ (r : CharacterStats) (t : Int),
      (publishTokens r t).totalChars = r.totalChars ∧
      (publishTokens r t).totalCharsNoSpaces = r.totalCharsNoSpaces ∧
      (publishTokens r t).words = r.words ∧
      (publishTokens r t).lines = r.lines ∧
      (publishTokens r t).paragraphs = r.paragraphs ∧
      (publishTokens r t).chineseChars = r.chineseChars ∧
      (publishTokens r t).englishChars = r.englishChars ∧
      (publishTokens r t).numbers = r.numbers ∧
      (publishTokens r t).punctuation = r.punctuation ∧
      (publishTokens r t).spaces = r.spaces ∧
      (publishTokens r t).tokens = some t := by
  constructor
  · unfold calculateTokens
    rw [hm]
    show (match load m.encoding with
          | Except.error _ => 0
          | Except.ok tokenizer =>
            match tokenizer input with
            | Except.error _ => 0
            | Except.ok toks => toks.length) = 0
    cases hl : load m.encoding with
    | error e => rfl
    | ok tok =>
      have hres : tokenizeResult load m.encoding input = tok input := by
        unfold tokenizeResult
        rw [hl]
      rw [hres] at hfail
      show (match tok input with
            | Except.error _ => 0
            | Except.ok toks => toks.length) = 0
      cases ht : tok input with
      | error e => rfl
      | ok out =>
        rw [ht] at hfail
        simp [isOkE] at hfail
  · intro r t
    exact ⟨rfl, rfl, rfl, rfl, rfl, rfl, rfl, rfl, rfl, rfl, rfl⟩

/-- Witness for C8: a loader that always fails to import, applied to the
model "gpt-4o". -/
theorem tokenizerFailureIsSoft_witness :
    findModel "gpt-4o"
        = some { value := "gpt-4o", label := "GPT-4o", encoding := "o200k_base" } ∧
    isOkE (tokenizeResult errLoad "o200k_base" (utf16Units "hello")) = false ∧
    calculateTokens errLoad (utf16Units "hello") "gpt-4o" = 0 :=
  ⟨by decide, by decide,
    (tokenizerFailureIsSoft errLoad (utf16Units "hello") "gpt-4o"
      { value := "gpt-4o", label := "GPT-4o", encoding := "o200k_base" }
      (by decide) (by decide)).1⟩

/-- Claim C1 (counterexample): there is no generation counter guarding the
publish of an asynchronous token result.  In the trace: schedule "a", its
timer fires (starting a token computation for "a"), schedule "bb", its
timer fires, and only then does cycle 1's token computation resolve — the
superseded cycle's token count 1 is merged into the report whose basic
statistics belong to the most recent cycle "bb" (token count 2), so a
stale cycle's token count does appear in the published report. -/
theorem staleTokenResultPublished :
    ((runTrace cfgEx
        [SchedEvent.schedule [97], SchedEvent.fire,
         SchedEvent.schedule [98, 98], SchedEvent.fire,
         SchedEvent.resolveTask 0]).published.totalChars = 2) ∧
    ((runTrace cfgEx
        [SchedEvent.schedule [97], SchedEvent.fire,
         SchedEvent.schedule [98, 98], SchedEvent.fire,
         SchedEvent.resolveTask 0]).published.tokens = some 1) ∧
    calculateTokens unitLoad [97] "gpt-4o" = 1 ∧
    calculateTokens unitLoad [98, 98] "gpt-4o" = 2 := by
  refine ⟨by decide, by decide, by decide, by decide⟩

/-- Claim C1 (amended): the only supersession guarantee the code provides
is `clearTimeout` on the not-yet-fired debounce timer: a `schedule`
immediately superseded by another `schedule` is observationally a no-op
(last call wins), in any context.  Once a cycle's timer has fired, its
in-flight token computation is not guarded by any generation check and
publishes unconditionally on arrival (see the counterexample). -/
theorem supersededScheduleIsNoOp (cfg : EngineConfig)
    (pre post : List SchedEvent) (t1 t2 : List Nat) :
    runTrace cfg
        (pre ++ SchedEvent.schedule t1 :: SchedEvent.schedule t2 :: post)
      = runTrace cfg (pre ++ SchedEvent.schedule t2 :: post) := by
  unfold runTrace
  rw [List.foldl_append, List.foldl_append, List.foldl_cons, List.foldl_cons,
    List.foldl_cons]
  rfl
